import Mathlib

/-!
Shallow embedding of the SinricPro capability modules:
`src/src/Capabilities/ThermostatController.h` (ThermostatController),
`src/unnamed/part_000` (RangeController) and
`src/src/EventSource/AirQualityEventSource.h`.

The loosely typed ArduinoJson value tree is embedded as an association list
from string keys to scalar `JsonValue`s.  C++ `float` is embedded as `ℚ`
(exact arithmetic; the claims under study concern the rounding convention of
`roundf`, not binary-float representation error).  A C++ `std::function`
field is embedded as `Option` of a Lean function; an empty `std::function`
(falsy in a boolean context) is `none`.  A callback taking an argument by
mutable reference and returning `bool` is embedded as a pure function
returning the pair (returned bool, value left in the reference).
-/

/-- A scalar slot of the loosely typed request/response value tree. -/
inductive JsonValue where
  | str (s : String)
  | int (i : Int)
  | num (q : ℚ)
  | boolean (b : Bool)
deriving DecidableEq, Repr

/-- Lookup of a key in a JSON object (first binding wins, as keys are unique). -/
def getValue : List (String × JsonValue) → String → Option JsonValue
  | [], _ => none
  | (k', v') :: rest, k => if k' = k then some v' else getValue rest k

/-- `obj.containsKey(k)` of ArduinoJson. -/
def containsKey (m : List (String × JsonValue)) (k : String) : Bool :=
  (getValue m k).isSome

/-- `obj[k] = v` of ArduinoJson: replace the binding when the key exists,
append it otherwise. -/
def setValue : List (String × JsonValue) → String → JsonValue → List (String × JsonValue)
  | [], k, v => [(k, v)]
  | (k', v') :: rest, k, v =>
      if k' = k then (k, v) :: rest else (k', v') :: setValue rest k v

/-- Reading `obj[k]` as a C++ float (`as<float>`): a numeric value converts,
anything else — in particular a missing key — yields the zero-like default 0.
This is the total embedding of the implementation-defined zero-like read. -/
def getFloat (m : List (String × JsonValue)) (k : String) : ℚ :=
  match getValue m k with
  | some (JsonValue.num q) => q
  | some (JsonValue.int i) => (i : ℚ)
  | _ => 0

/-- Reading `obj[k] | d` as an int: an integer value converts, anything else —
in particular a missing key — yields the supplied default `d`. -/
def getIntOr (m : List (String × JsonValue)) (k : String) (d : Int) : Int :=
  match getValue m k with
  | some (JsonValue.int i) => i
  | _ => d

/-- Reading `obj[k] | d` as a string: a string value converts, anything else —
in particular a missing key — yields the supplied default `d`. -/
def getStrOr (m : List (String × JsonValue)) (k : String) (d : String) : String :=
  match getValue m k with
  | some (JsonValue.str s) => s
  | _ => d

/-- `SinricProRequest`: `action`, optional `instance` sub-target (empty string
means none), the inbound `request_value` object and the outbound
`response_value` object the handler populates. -/
structure SinricProRequest where
  action : String
  instance_ : String
  request_value : List (String × JsonValue)
  response_value : List (String × JsonValue)
deriving DecidableEq, Repr

/-- C's `roundf`: round to the nearest integer, halves away from zero. -/
def roundf (x : ℚ) : ℚ :=
  if 0 ≤ x then (⌊x + 1/2⌋ : ℤ) else (⌈x - 1/2⌉ : ℤ)

/-- Outbound event envelope: the fields of the event message this core fills
in (`action`, `cause`, the optional `payload.instanceId`, `payload.value`);
protocol metadata filled by the device is out of scope. -/
structure EventMessage where
  action : String
  cause : String
  instanceId : Option String
  payload_value : List (String × JsonValue)
deriving DecidableEq, Repr

/-- Modelled from the spec: `prepareEvent` lives in the device class, which is
not under `src/`; per the spec it returns an envelope pre-populated with
protocol metadata (out of scope here), the given action and cause, and an
empty value payload. -/
def prepareEvent (actionName : String) (cause : String) : EventMessage :=
  { action := actionName, cause := cause, instanceId := none, payload_value := [] }

/-- The device collaborator a capability is mixed into: its id and its
`sendEvent` transmit operation (external; returns acceptance). -/
structure Device where
  deviceId : String
  sendEvent : EventMessage → Bool

/-- `bool(const String &deviceId, String &mode)`. -/
abbrev ThermostatModeCallback := String → String → Bool × String

/-- `bool(const String &deviceId, float &temperature)`. -/
abbrev SetTargetTemperatureCallback := String → ℚ → Bool × ℚ

/-- `bool(const String &deviceId, float &temperatureDelta)`. -/
abbrev AdjustTargetTemperatureCallback := String → ℚ → Bool × ℚ

/-- The private state of a `ThermostatController<T>` mixin: one optional
callback per supported action. -/
structure ThermostatController where
  thermostatModeCallback : Option ThermostatModeCallback
  targetTemperatureCallback : Option SetTargetTemperatureCallback
  adjustTargetTemperatureCallback : Option AdjustTargetTemperatureCallback

/-- The freshly constructed controller: every `std::function` member empty. -/
def defaultThermostatController : ThermostatController :=
  ⟨none, none, none⟩

/-- `onThermostatMode`: store the callback, overwriting any previous one. -/
def onThermostatMode (c : ThermostatController) (cb : ThermostatModeCallback) :
    ThermostatController :=
  { c with thermostatModeCallback := some cb }

/-- `onTargetTemperature`: store the callback, overwriting any previous one. -/
def onTargetTemperature (c : ThermostatController) (cb : SetTargetTemperatureCallback) :
    ThermostatController :=
  { c with targetTemperatureCallback := some cb }

/-- `onAdjustTargetTemperature`: store the callback, overwriting any previous one. -/
def onAdjustTargetTemperature (c : ThermostatController) (cb : AdjustTargetTemperatureCallback) :
    ThermostatController :=
  { c with adjustTargetTemperatureCallback := some cb }

/-- `handleThermostatController`.  The C++ guards each branch with
`request.action == A && callback`; since the three action strings are
pairwise distinct, a matched action with an empty callback falls through all
remaining branches to `return success` (false, request untouched), which the
`none` arms reproduce. -/
def handleThermostatController (deviceId : String) (c : ThermostatController)
    (request : SinricProRequest) : Bool × SinricProRequest :=
  if request.action = "targetTemperature" then
    match c.targetTemperatureCallback with
    | some targetTemperatureCallback =>
        let temperature : ℚ :=
          if containsKey request.request_value "temperature" then
            getFloat request.request_value "temperature"
          else 1
        let result := targetTemperatureCallback deviceId temperature
        (result.1, { request with
          response_value := setValue request.response_value "temperature" (JsonValue.num result.2) })
    | none => (false, request)
  else if request.action = "adjustTargetTemperature" then
    match c.adjustTargetTemperatureCallback with
    | some adjustTargetTemperatureCallback =>
        let temperatureDelta : ℚ := getFloat request.request_value "temperature"
        let result := adjustTargetTemperatureCallback deviceId temperatureDelta
        (result.1, { request with
          response_value := setValue request.response_value "temperature" (JsonValue.num result.2) })
    | none => (false, request)
  else if request.action = "setThermostatMode" then
    match c.thermostatModeCallback with
    | some thermostatModeCallback =>
        let thermostatMode : String := getStrOr request.request_value "thermostatMode" ""
        let result := thermostatModeCallback deviceId thermostatMode
        (result.1, { request with
          response_value := setValue request.response_value "thermostatMode" (JsonValue.str result.2) })
    | none => (false, request)
  else (false, request)

/-- `sendThermostatModeEvent`: the event message it builds. -/
def thermostatModeEventMessage (thermostatMode : String) (cause : String) : EventMessage :=
  let eventMessage := prepareEvent "setThermostatMode" cause
  { eventMessage with
    payload_value := setValue eventMessage.payload_value "thermostatMode" (JsonValue.str thermostatMode) }

/-- `sendThermostatModeEvent` (default cause `"PHYSICAL_INTERACTION"`). -/
def sendThermostatModeEvent (device : Device) (thermostatMode : String) (cause : String) : Bool :=
  device.sendEvent (thermostatModeEventMessage thermostatMode cause)

/-- `sendTargetTemperatureEvent`: the event message it builds;
`event_value["temperature"] = roundf(temperature * 10) / 10.0`. -/
def targetTemperatureEventMessage (temperature : ℚ) (cause : String) : EventMessage :=
  let eventMessage := prepareEvent "targetTemperature" cause
  { eventMessage with
    payload_value := setValue eventMessage.payload_value "temperature"
      (JsonValue.num (roundf (temperature * 10) / 10)) }

/-- `sendTargetTemperatureEvent` (default cause `"PHYSICAL_INTERACTION"`). -/
def sendTargetTemperatureEvent (device : Device) (temperature : ℚ) (cause : String) : Bool :=
  device.sendEvent (targetTemperatureEventMessage temperature cause)

/-- `bool(const String &deviceId, int &rangeValue)`. -/
abbrev SetRangeValueCallback := String → Int → Bool × Int

/-- `bool(const String &deviceId, const String &instance, int &rangeValue)`. -/
abbrev GenericSetRangeValueCallback := String → String → Int → Bool × Int

/-- `bool(const String &deviceId, int &rangeValueDelta)`. -/
abbrev AdjustRangeValueCallback := String → Int → Bool × Int

/-- `bool(const String &deviceId, const String &instance, int &rangeValueDelta)`. -/
abbrev GenericAdjustRangeValueCallback := String → String → Int → Bool × Int

/-- A `std::map<String, CB>` of callbacks, embedded as a partial function. -/
abbrev CallbackMap (CB : Type) := String → Option CB

/-- `map[key] = cb`: insert or overwrite the binding at `key`. -/
def mapInsert {CB : Type} (m : CallbackMap CB) (key : String) (cb : CB) : CallbackMap CB :=
  fun k => if k = key then some cb else m k

/-- The private state of a `RangeController<T>` mixin: one optional default
callback and one instance-keyed map per action family. -/
structure RangeController where
  setRangeValueCallback : Option SetRangeValueCallback
  genericSetRangeValueCallback : CallbackMap GenericSetRangeValueCallback
  adjustRangeValueCallback : Option AdjustRangeValueCallback
  genericAdjustRangeValueCallback : CallbackMap GenericAdjustRangeValueCallback

/-- The freshly constructed controller: empty default callbacks, empty maps. -/
def defaultRangeController : RangeController :=
  ⟨none, fun _ => none, none, fun _ => none⟩

/-- `onRangeValue(cb)`: store the default callback, overwriting any previous. -/
def onRangeValue (c : RangeController) (cb : SetRangeValueCallback) : RangeController :=
  { c with setRangeValueCallback := some cb }

/-- `onRangeValue(instance, cb)` overload: keyed by instance name. -/
def onRangeValueGeneric (c : RangeController) (inst : String)
    (cb : GenericSetRangeValueCallback) : RangeController :=
  { c with genericSetRangeValueCallback := mapInsert c.genericSetRangeValueCallback inst cb }

/-- `onAdjustRangeValue(cb)`: store the default callback, overwriting any previous. -/
def onAdjustRangeValue (c : RangeController) (cb : AdjustRangeValueCallback) : RangeController :=
  { c with adjustRangeValueCallback := some cb }

/-- `onAdjustRangeValue(instance, cb)` overload: keyed by instance name. -/
def onAdjustRangeValueGeneric (c : RangeController) (inst : String)
    (cb : GenericAdjustRangeValueCallback) : RangeController :=
  { c with genericAdjustRangeValueCallback := mapInsert c.genericAdjustRangeValueCallback inst cb }

/-- `handleRangeController`: when the action matches, parse the numeric field
with default 0, dispatch on `request.instance` (keyed map for a non-empty
instance, default callback otherwise), then always write the value into
`response_value["rangeValue"]` and return `success`. -/
def handleRangeController (deviceId : String) (c : RangeController)
    (request : SinricProRequest) : Bool × SinricProRequest :=
  if request.action = "setRangeValue" then
    let rangeValue : Int := getIntOr request.request_value "rangeValue" 0
    let result : Bool × Int :=
      if request.instance_ ≠ "" then
        match c.genericSetRangeValueCallback request.instance_ with
        | some cb => cb deviceId request.instance_ rangeValue
        | none => (false, rangeValue)
      else
        match c.setRangeValueCallback with
        | some cb => cb deviceId rangeValue
        | none => (false, rangeValue)
    (result.1, { request with
      response_value := setValue request.response_value "rangeValue" (JsonValue.int result.2) })
  else if request.action = "adjustRangeValue" then
    let rangeValueDelta : Int := getIntOr request.request_value "rangeValueDelta" 0
    let result : Bool × Int :=
      if request.instance_ ≠ "" then
        match c.genericAdjustRangeValueCallback request.instance_ with
        | some cb => cb deviceId request.instance_ rangeValueDelta
        | none => (false, rangeValueDelta)
      else
        match c.adjustRangeValueCallback with
        | some cb => cb deviceId rangeValueDelta
        | none => (false, rangeValueDelta)
    (result.1, { request with
      response_value := setValue request.response_value "rangeValue" (JsonValue.int result.2) })
  else (false, request)

/-- `sendRangeValueEvent`: the event message it builds (default overload). -/
def rangeValueEventMessage (rangeValue : Int) (cause : String) : EventMessage :=
  let eventMessage := prepareEvent "setRangeValue" cause
  { eventMessage with
    payload_value := setValue eventMessage.payload_value "rangeValue" (JsonValue.int rangeValue) }

/-- `sendRangeValueEvent` (default cause `"PHYSICAL_INTERACTION"`). -/
def sendRangeValueEvent (device : Device) (rangeValue : Int) (cause : String) : Bool :=
  device.sendEvent (rangeValueEventMessage rangeValue cause)

/-- `sendRangeValueEvent(instance, ...)` overload: additionally sets
`payload.instanceId` (sibling of the value payload). -/
def rangeValueEventMessageGeneric (inst : String) (rangeValue : Int) (cause : String) :
    EventMessage :=
  let eventMessage := prepareEvent "setRangeValue" cause
  { eventMessage with
    instanceId := some inst
    payload_value := setValue eventMessage.payload_value "rangeValue" (JsonValue.int rangeValue) }

/-- Instance-qualified `sendRangeValueEvent`. -/
def sendRangeValueEventGeneric (device : Device) (inst : String) (rangeValue : Int)
    (cause : String) : Bool :=
  device.sendEvent (rangeValueEventMessageGeneric inst rangeValue cause)

/-- `sendAirQualityEvent` of `AirQualityEventSource`: the event message. -/
def airQualityEventMessage (pm1 pm2_5 pm10 : Int) (cause : String) : EventMessage :=
  let eventMessage := prepareEvent "airQuality" cause
  { eventMessage with
    payload_value :=
      setValue (setValue (setValue eventMessage.payload_value
        "pm1" (JsonValue.int pm1)) "pm2_5" (JsonValue.int pm2_5)) "pm10" (JsonValue.int pm10) }

/-- `sendAirQualityEvent` (default cause `"PERIODIC_POLL"`). -/
def sendAirQualityEvent (device : Device) (pm1 pm2_5 pm10 : Int) (cause : String) : Bool :=
  device.sendEvent (airQualityEventMessage pm1 pm2_5 pm10 cause)

/-! ### Shared lemmas about the payload object -/

/-- After `setValue m k v`, looking up `k` yields `v`. -/
theorem getValue_setValue_self (m : List (String × JsonValue)) (k : String) (v : JsonValue) :
    getValue (setValue m k v) k = some v := by
  induction m with
  | nil => simp [setValue, getValue]
  | cons p rest ih =>
      by_cases h : p.1 = k
      · simp [setValue, getValue, h]
      · simp [setValue, getValue, h, ih]

/-- `setValue m k v` does not disturb the binding of any other key. -/
theorem getValue_setValue_ne (m : List (String × JsonValue)) (k k' : String) (v : JsonValue)
    (h : k' ≠ k) : getValue (setValue m k v) k' = getValue m k' := by
  induction m with
  | nil => simp [setValue, getValue, Ne.symm h]
  | cons p rest ih =>
      by_cases hp : p.1 = k
      · simp [setValue, getValue, hp, Ne.symm h]
      · by_cases hpk : p.1 = k'
        · simp [setValue, getValue, hp, hpk, h]
        · simp [setValue, getValue, hp, hpk, ih]

/-- A `containsKey = false` payload read yields `none`. -/
theorem getValue_eq_none_of_not_containsKey (m : List (String × JsonValue)) (k : String)
    (h : containsKey m k = false) : getValue m k = none := by
  cases hv : getValue m k with
  | none => rfl
  | some v => rw [containsKey, hv] at h; simp at h

/-! ### Claim C1 -/

/-- Claim C1 as stated is false: dispatching
`{action:"setThermostatMode", request_value:{thermostatMode:"COOL"}}` on a
thermostat controller with no callback registered returns `success = false`
but leaves `response_value` empty — the requested mode is NOT echoed into the
response, because the `setThermostatMode` branch is guarded by
`request.action == "setThermostatMode" && thermostatModeCallback`. -/
theorem spec_C1_counterexample :
    (handleThermostatController "device1" defaultThermostatController
        ⟨"setThermostatMode", "", [("thermostatMode", JsonValue.str "COOL")], []⟩).1 = false
    ∧ (handleThermostatController "device1" defaultThermostatController
        ⟨"setThermostatMode", "", [("thermostatMode", JsonValue.str "COOL")], []⟩).2.response_value
        = []
    ∧ ¬ getValue (handleThermostatController "device1" defaultThermostatController
          ⟨"setThermostatMode", "", [("thermostatMode", JsonValue.str "COOL")], []⟩).2.response_value
          "thermostatMode" = some (JsonValue.str "COOL") := by
  refine ⟨rfl, rfl, ?_⟩
  decide

/-- Claim C1 amended: for the single-target (thermostat-style) capability,
when `request.action` matches a supported action but no callback is
registered for that action, `handle` returns false and `response_value` is
left untouched (no echo happens: the matched branch only runs when its
callback is registered). -/
theorem spec_C1 (deviceId : String) (c : ThermostatController) (request : SinricProRequest)
    (h : (request.action = "targetTemperature" ∧ c.targetTemperatureCallback = none)
       ∨ (request.action = "adjustTargetTemperature" ∧ c.adjustTargetTemperatureCallback = none)
       ∨ (request.action = "setThermostatMode" ∧ c.thermostatModeCallback = none)) :
    handleThermostatController deviceId c request = (false, request) := by
  rcases h with ⟨hact, hcb⟩ | ⟨hact, hcb⟩ | ⟨hact, hcb⟩ <;>
    simp [handleThermostatController, hact, hcb]

/-- Witness for C1: the concrete scenario of end-to-end scenario 3, settled by
the amended theorem. -/
theorem spec_C1_witness :
    handleThermostatController "device1" defaultThermostatController
      ⟨"setThermostatMode", "", [("thermostatMode", JsonValue.str "COOL")], []⟩
    = (false, ⟨"setThermostatMode", "", [("thermostatMode", JsonValue.str "COOL")], []⟩) :=
  spec_C1 "device1" defaultThermostatController
    ⟨"setThermostatMode", "", [("thermostatMode", JsonValue.str "COOL")], []⟩
    (Or.inr (Or.inr ⟨rfl, rfl⟩))
/-! ### Claim C2 -/

/-- Claim C2: for the multi-instance (range-style) capability, whenever the
action matches `setRangeValue` or `adjustRangeValue` but the request is
unfulfilled — no callback registered for the relevant key, an instance absent
from the keyed mapping, or the invoked callback returning false — `handle`
returns false while `response_value["rangeValue"]` is still populated with
the (default or requested, possibly callback-mutated) value. -/
theorem spec_C2 (deviceId : String) (c : RangeController) (request : SinricProRequest) :
    (request.action = "setRangeValue" →
      ((request.instance_ = "" → c.setRangeValueCallback = none →
          handleRangeController deviceId c request =
            (false,
              { request with
                  response_value :=
                    setValue request.response_value "rangeValue"
                      (JsonValue.int (getIntOr request.request_value "rangeValue" 0)) }))
        ∧ (request.instance_ ≠ "" → c.genericSetRangeValueCallback request.instance_ = none →
            handleRangeController deviceId c request =
              (false,
                { request with
                    response_value :=
                      setValue request.response_value "rangeValue"
                        (JsonValue.int (getIntOr request.request_value "rangeValue" 0)) }))
        ∧ (∀ cb, request.instance_ = "" → c.setRangeValueCallback = some cb →
            (cb deviceId (getIntOr request.request_value "rangeValue" 0)).1 = false →
            handleRangeController deviceId c request =
              (false,
                { request with
                    response_value :=
                      setValue request.response_value "rangeValue"
                        (JsonValue.int
                          (cb deviceId (getIntOr request.request_value "rangeValue" 0)).2) }))
        ∧ (∀ cb, request.instance_ ≠ "" →
            c.genericSetRangeValueCallback request.instance_ = some cb →
            (cb deviceId request.instance_ (getIntOr request.request_value "rangeValue" 0)).1
              = false →
            handleRangeController deviceId c request =
              (false,
                { request with
                    response_value :=
                      setValue request.response_value "rangeValue"
                        (JsonValue.int
                          (cb deviceId request.instance_
                            (getIntOr request.request_value "rangeValue" 0)).2) }))))
    ∧ (request.action = "adjustRangeValue" →
      ((request.instance_ = "" → c.adjustRangeValueCallback = none →
          handleRangeController deviceId c request =
            (false,
              { request with
                  response_value :=
                    setValue request.response_value "rangeValue"
                      (JsonValue.int (getIntOr request.request_value "rangeValueDelta" 0)) }))
        ∧ (request.instance_ ≠ "" → c.genericAdjustRangeValueCallback request.instance_ = none →
            handleRangeController deviceId c request =
              (false,
                { request with
                    response_value :=
                      setValue request.response_value "rangeValue"
                        (JsonValue.int (getIntOr request.request_value "rangeValueDelta" 0)) }))
        ∧ (∀ cb, request.instance_ = "" → c.adjustRangeValueCallback = some cb →
            (cb deviceId (getIntOr request.request_value "rangeValueDelta" 0)).1 = false →
            handleRangeController deviceId c request =
              (false,
                { request with
                    response_value :=
                      setValue request.response_value "rangeValue"
                        (JsonValue.int
                          (cb deviceId (getIntOr request.request_value "rangeValueDelta" 0)).2) }))
        ∧ (∀ cb, request.instance_ ≠ "" →
            c.genericAdjustRangeValueCallback request.instance_ = some cb →
            (cb deviceId request.instance_
              (getIntOr request.request_value "rangeValueDelta" 0)).1 = false →
            handleRangeController deviceId c request =
              (false,
                { request with
                    response_value :=
                      setValue request.response_value "rangeValue"
                        (JsonValue.int
                          (cb deviceId request.instance_
                            (getIntOr request.request_value "rangeValueDelta" 0)).2) })))) := by
  constructor
  · intro hact
    refine ⟨?_, ?_, ?_, ?_⟩
    · intro hinst hcb
      simp [handleRangeController, hact, hinst, hcb]
    · intro hinst hcb
      simp [handleRangeController, hact, hinst, hcb]
    · intro cb hinst hcb hfail
      simp [handleRangeController, hact, hinst, hcb, hfail]
    · intro cb hinst hcb hfail
      simp [handleRangeController, hact, hinst, hcb, hfail]
  · intro hact
    refine ⟨?_, ?_, ?_, ?_⟩
    · intro hinst hcb
      simp [handleRangeController, hact, hinst, hcb]
    · intro hinst hcb
      simp [handleRangeController, hact, hinst, hcb]
    · intro cb hinst hcb hfail
      simp [handleRangeController, hact, hinst, hcb, hfail]
    · intro cb hinst hcb hfail
      simp [handleRangeController, hact, hinst, hcb, hfail]

/-- Witness for C2: instance `"instance1"` absent from the keyed map with no
callbacks registered at all; `setRangeValue` yields false with the default 0
echoed under `rangeValue`. -/
theorem spec_C2_witness :
    handleRangeController "device1" defaultRangeController
      ⟨"setRangeValue", "instance1", [], []⟩
    = (false, ⟨"setRangeValue", "instance1", [], [("rangeValue", JsonValue.int 0)]⟩) := by
  have h := ((spec_C2 "device1" defaultRangeController
      ⟨"setRangeValue", "instance1", [], []⟩).1 rfl).2.1 (by decide) rfl
  simpa using h

/-! ### Claim C3 -/

/-- Claim C3: dispatch rule of the multi-instance capability for
`setRangeValue` / `adjustRangeValue`.  Non-empty `request.instance`: the
keyed map is consulted by exact name — when found, that callback is invoked
with (deviceId, instance, value); when not found, success is false and no
callback fires — in particular the outcome is independent of whatever default
scalar callback is registered.  Empty `request.instance`: the default scalar
callback is invoked when registered. -/
theorem spec_C3 (deviceId : String) (c : RangeController) (request : SinricProRequest) :
    (request.action = "setRangeValue" →
      ((∀ cb, request.instance_ ≠ "" →
          c.genericSetRangeValueCallback request.instance_ = some cb →
          handleRangeController deviceId c request =
            ((cb deviceId request.instance_ (getIntOr request.request_value "rangeValue" 0)).1,
              { request with
                  response_value :=
                    setValue request.response_value "rangeValue"
                      (JsonValue.int
                        (cb deviceId request.instance_
                          (getIntOr request.request_value "rangeValue" 0)).2) }))
        ∧ (request.instance_ ≠ "" → c.genericSetRangeValueCallback request.instance_ = none →
            (handleRangeController deviceId c request).1 = false
            ∧ ∀ o, handleRangeController deviceId { c with setRangeValueCallback := o } request
                = handleRangeController deviceId c request)
        ∧ (∀ cb, request.instance_ = "" → c.setRangeValueCallback = some cb →
            handleRangeController deviceId c request =
              ((cb deviceId (getIntOr request.request_value "rangeValue" 0)).1,
                { request with
                    response_value :=
                      setValue request.response_value "rangeValue"
                        (JsonValue.int
                          (cb deviceId (getIntOr request.request_value "rangeValue" 0)).2) }))))
    ∧ (request.action = "adjustRangeValue" →
      ((∀ cb, request.instance_ ≠ "" →
          c.genericAdjustRangeValueCallback request.instance_ = some cb →
          handleRangeController deviceId c request =
            ((cb deviceId request.instance_
                (getIntOr request.request_value "rangeValueDelta" 0)).1,
              { request with
                  response_value :=
                    setValue request.response_value "rangeValue"
                      (JsonValue.int
                        (cb deviceId request.instance_
                          (getIntOr request.request_value "rangeValueDelta" 0)).2) }))
        ∧ (request.instance_ ≠ "" → c.genericAdjustRangeValueCallback request.instance_ = none →
            (handleRangeController deviceId c request).1 = false
            ∧ ∀ o, handleRangeController deviceId { c with adjustRangeValueCallback := o } request
                = handleRangeController deviceId c request)
        ∧ (∀ cb, request.instance_ = "" → c.adjustRangeValueCallback = some cb →
            handleRangeController deviceId c request =
              ((cb deviceId (getIntOr request.request_value "rangeValueDelta" 0)).1,
                { request with
                    response_value :=
                      setValue request.response_value "rangeValue"
                        (JsonValue.int
                          (cb deviceId
                            (getIntOr request.request_value "rangeValueDelta" 0)).2) })))) := by
  constructor
  · intro hact
    refine ⟨?_, ?_, ?_⟩
    · intro cb hinst hcb
      simp [handleRangeController, hact, hinst, hcb]
    · intro hinst hcb
      refine ⟨?_, ?_⟩
      · simp [handleRangeController, hact, hinst, hcb]
      · intro o
        simp [handleRangeController, hact, hinst, hcb]
    · intro cb hinst hcb
      simp [handleRangeController, hact, hinst, hcb]
  · intro hact
    refine ⟨?_, ?_, ?_⟩
    · intro cb hinst hcb
      simp [handleRangeController, hact, hinst, hcb]
    · intro hinst hcb
      refine ⟨?_, ?_⟩
      · simp [handleRangeController, hact, hinst, hcb]
      · intro o
        simp [handleRangeController, hact, hinst, hcb]
    · intro cb hinst hcb
      simp [handleRangeController, hact, hinst, hcb]

/-- Witness for C3: `setRangeValue` with `instance = "instance1"` and only a
default callback registered: the default is not invoked and `handle` returns
false (the scenario of end-to-end testable property 3). -/
theorem spec_C3_witness :
    (handleRangeController "device1"
      (onRangeValue defaultRangeController (fun _ v => (true, v)))
      ⟨"setRangeValue", "instance1", [("rangeValue", JsonValue.int 1)], []⟩).1 = false := by
  have h := (((spec_C3 "device1"
      (onRangeValue defaultRangeController (fun _ v => (true, v)))
      ⟨"setRangeValue", "instance1", [("rangeValue", JsonValue.int 1)], []⟩).1 rfl).2.1
      (by decide) rfl).1
  exact h

/-! ### Claim C4 -/

/-- Claim C4: for an `adjustTargetTemperature` request with an adjust callback
registered and the `"temperature"` key absent, no error is detected: the
payload read yields the zero-like value 0 in this total embedding, that 0 is
passed to the callback, and `handle` returns whatever the callback returns
(with the callback-mutated value echoed into `response_value`). -/
theorem spec_C4 (deviceId : String) (c : ThermostatController)
    (cb : AdjustTargetTemperatureCallback) (request : SinricProRequest)
    (hact : request.action = "adjustTargetTemperature")
    (hcb : c.adjustTargetTemperatureCallback = some cb)
    (hkey : containsKey request.request_value "temperature" = false) :
    getFloat request.request_value "temperature" = 0
    ∧ handleThermostatController deviceId c request =
        ((cb deviceId 0).1,
          { request with
              response_value :=
                setValue request.response_value "temperature"
                  (JsonValue.num (cb deviceId 0).2) }) := by
  have hnone : getValue request.request_value "temperature" = none :=
    getValue_eq_none_of_not_containsKey _ _ hkey
  have hzero : getFloat request.request_value "temperature" = 0 := by
    simp [getFloat, hnone]
  refine ⟨hzero, ?_⟩
  simp [handleThermostatController, hact, hcb, hzero]

/-- Witness for C4: a concrete adjust callback `(true, delta + 5)` on an empty
payload receives 0 and yields temperature 5 in the response. -/
theorem spec_C4_witness :
    containsKey ([] : List (String × JsonValue)) "temperature" = false
    ∧ handleThermostatController "device1"
        (onAdjustTargetTemperature defaultThermostatController (fun _ t => (true, t + 5)))
        ⟨"adjustTargetTemperature", "", [], []⟩
      = (true, ⟨"adjustTargetTemperature", "", [], [("temperature", JsonValue.num 5)]⟩) := by
  refine ⟨by decide, ?_⟩
  have h := (spec_C4 "device1"
      (onAdjustTargetTemperature defaultThermostatController (fun _ t => (true, t + 5)))
      (fun _ t => (true, t + 5))
      ⟨"adjustTargetTemperature", "", [], []⟩ rfl rfl (by decide)).2
  simpa using h

/-! ### Claim C5 -/

/-- Claim C5: for a `targetTemperature` request with a callback registered and
the `"temperature"` key absent, the parsed value defaults to 1; the callback
receives that default, and the (possibly mutated) value appears in
`response_value["temperature"]` — the default 1 itself when the callback does
not mutate it. -/
theorem spec_C5 (deviceId : String) (c : ThermostatController)
    (cb : SetTargetTemperatureCallback) (request : SinricProRequest)
    (hact : request.action = "targetTemperature")
    (hcb : c.targetTemperatureCallback = some cb)
    (hkey : containsKey request.request_value "temperature" = false) :
    handleThermostatController deviceId c request =
      ((cb deviceId 1).1,
        { request with
            response_value :=
              setValue request.response_value "temperature"
                (JsonValue.num (cb deviceId 1).2) })
    ∧ getValue (handleThermostatController deviceId c request).2.response_value "temperature"
        = some (JsonValue.num (cb deviceId 1).2) := by
  have hmain : handleThermostatController deviceId c request =
      ((cb deviceId 1).1,
        { request with
            response_value :=
              setValue request.response_value "temperature"
                (JsonValue.num (cb deviceId 1).2) }) := by
    simp [handleThermostatController, hact, hcb, hkey]
  refine ⟨hmain, ?_⟩
  rw [hmain]
  exact getValue_setValue_self _ _ _

/-- Witness for C5: the identity callback on an empty payload leaves the
default 1 in the response. -/
theorem spec_C5_witness :
    containsKey ([] : List (String × JsonValue)) "temperature" = false
    ∧ handleThermostatController "device1"
        (onTargetTemperature defaultThermostatController (fun _ t => (true, t)))
        ⟨"targetTemperature", "", [], []⟩
      = (true, ⟨"targetTemperature", "", [], [("temperature", JsonValue.num 1)]⟩) := by
  refine ⟨by decide, ?_⟩
  have h := (spec_C5 "device1"
      (onTargetTemperature defaultThermostatController (fun _ t => (true, t)))
      (fun _ t => (true, t))
      ⟨"targetTemperature", "", [], []⟩ rfl rfl (by decide)).1
  simpa using h

/-! ### Claim C6 -/

/-- Claim C6: for the multi-instance capability the numeric request fields
default to 0 when absent — `"rangeValue"` for `setRangeValue` and
`"rangeValueDelta"` for `adjustRangeValue` — and the substituted 0 is what any
invoked callback (default or instance-keyed) receives, so absence of the
field never reaches a callback undefaulted. -/
theorem spec_C6 (deviceId : String) (c : RangeController) (request : SinricProRequest) :
    (request.action = "setRangeValue" →
        containsKey request.request_value "rangeValue" = false →
      getIntOr request.request_value "rangeValue" 0 = 0
      ∧ (∀ cb, request.instance_ = "" → c.setRangeValueCallback = some cb →
          handleRangeController deviceId c request =
            ((cb deviceId 0).1,
              { request with
                  response_value :=
                    setValue request.response_value "rangeValue"
                      (JsonValue.int (cb deviceId 0).2) }))
      ∧ (∀ cb, request.instance_ ≠ "" →
          c.genericSetRangeValueCallback request.instance_ = some cb →
          handleRangeController deviceId c request =
            ((cb deviceId request.instance_ 0).1,
              { request with
                  response_value :=
                    setValue request.response_value "rangeValue"
                      (JsonValue.int (cb deviceId request.instance_ 0).2) })))
    ∧ (request.action = "adjustRangeValue" →
        containsKey request.request_value "rangeValueDelta" = false →
      getIntOr request.request_value "rangeValueDelta" 0 = 0
      ∧ (∀ cb, request.instance_ = "" → c.adjustRangeValueCallback = some cb →
          handleRangeController deviceId c request =
            ((cb deviceId 0).1,
              { request with
                  response_value :=
                    setValue request.response_value "rangeValue"
                      (JsonValue.int (cb deviceId 0).2) }))
      ∧ (∀ cb, request.instance_ ≠ "" →
          c.genericAdjustRangeValueCallback request.instance_ = some cb →
          handleRangeController deviceId c request =
            ((cb deviceId request.instance_ 0).1,
              { request with
                  response_value :=
                    setValue request.response_value "rangeValue"
                      (JsonValue.int (cb deviceId request.instance_ 0).2) }))) := by
  constructor
  · intro hact hkey
    have hnone : getValue request.request_value "rangeValue" = none :=
      getValue_eq_none_of_not_containsKey _ _ hkey
    have hzero : getIntOr request.request_value "rangeValue" 0 = 0 := by
      simp [getIntOr, hnone]
    refine ⟨hzero, ?_, ?_⟩
    · intro cb hinst hcb
      simp [handleRangeController, hact, hinst, hcb, hzero]
    · intro cb hinst hcb
      simp [handleRangeController, hact, hinst, hcb, hzero]
  · intro hact hkey
    have hnone : getValue request.request_value "rangeValueDelta" = none :=
      getValue_eq_none_of_not_containsKey _ _ hkey
    have hzero : getIntOr request.request_value "rangeValueDelta" 0 = 0 := by
      simp [getIntOr, hnone]
    refine ⟨hzero, ?_, ?_⟩
    · intro cb hinst hcb
      simp [handleRangeController, hact, hinst, hcb, hzero]
    · intro cb hinst hcb
      simp [handleRangeController, hact, hinst, hcb, hzero]

/-- Witness for C6: `adjustRangeValue` with empty payload and a default
callback `(true, delta + 2)`: the callback receives the substituted 0 and the
response carries 2. -/
theorem spec_C6_witness :
    containsKey ([] : List (String × JsonValue)) "rangeValueDelta" = false
    ∧ handleRangeController "device1"
        (onAdjustRangeValue defaultRangeController (fun _ v => (true, v + 2)))
        ⟨"adjustRangeValue", "", [], []⟩
      = (true, ⟨"adjustRangeValue", "", [], [("rangeValue", JsonValue.int 2)]⟩) := by
  refine ⟨by decide, ?_⟩
  have h := ((spec_C6 "device1"
      (onAdjustRangeValue defaultRangeController (fun _ v => (true, v + 2)))
      ⟨"adjustRangeValue", "", [], []⟩).2 rfl (by decide)).2.1
      (fun _ v => (true, v + 2)) rfl rfl
  simpa using h

/-! ### Claim C7 -/

/-- Claim C7: when the multi-instance capability services an
`adjustRangeValue` request, the resulting value is written into the response
under `"rangeValue"` — the same key a set would use — and the
`"rangeValueDelta"` key of the response is untouched (never written). -/
theorem spec_C7 (deviceId : String) (c : RangeController) (request : SinricProRequest)
    (hact : request.action = "adjustRangeValue") :
    ∃ w : Int,
      (handleRangeController deviceId c request).2.response_value
        = setValue request.response_value "rangeValue" (JsonValue.int w)
      ∧ getValue (handleRangeController deviceId c request).2.response_value "rangeValue"
          = some (JsonValue.int w)
      ∧ getValue (handleRangeController deviceId c request).2.response_value "rangeValueDelta"
          = getValue request.response_value "rangeValueDelta" := by
  have hne : ("rangeValueDelta" : String) ≠ "rangeValue" := by decide
  by_cases hinst : request.instance_ = ""
  · cases hcb : c.adjustRangeValueCallback with
    | none =>
        refine ⟨getIntOr request.request_value "rangeValueDelta" 0, ?_, ?_, ?_⟩ <;>
          simp [handleRangeController, hact, hinst, hcb,
            getValue_setValue_self, getValue_setValue_ne _ _ _ _ hne]
    | some cb =>
        refine ⟨(cb deviceId (getIntOr request.request_value "rangeValueDelta" 0)).2,
          ?_, ?_, ?_⟩ <;>
          simp [handleRangeController, hact, hinst, hcb,
            getValue_setValue_self, getValue_setValue_ne _ _ _ _ hne]
  · cases hcb : c.genericAdjustRangeValueCallback request.instance_ with
    | none =>
        refine ⟨getIntOr request.request_value "rangeValueDelta" 0, ?_, ?_, ?_⟩ <;>
          simp [handleRangeController, hact, hinst, hcb,
            getValue_setValue_self, getValue_setValue_ne _ _ _ _ hne]
    | some cb =>
        refine ⟨(cb deviceId request.instance_
            (getIntOr request.request_value "rangeValueDelta" 0)).2, ?_, ?_, ?_⟩ <;>
          simp [handleRangeController, hact, hinst, hcb,
            getValue_setValue_self, getValue_setValue_ne _ _ _ _ hne]

/-- Witness for C7: adjusting by 3 via an instance-keyed callback that adds
the delta to a current value of 1: the response reports 4 under
`"rangeValue"` and has no `"rangeValueDelta"` entry. -/
theorem spec_C7_witness :
    ∃ w : Int,
      (handleRangeController "device1"
        (onAdjustRangeValueGeneric defaultRangeController "instance1"
          (fun _ _ d => (true, d + 1)))
        ⟨"adjustRangeValue", "instance1", [("rangeValueDelta", JsonValue.int 3)], []⟩).2.response_value
        = setValue [] "rangeValue" (JsonValue.int w)
      ∧ getValue (handleRangeController "device1"
          (onAdjustRangeValueGeneric defaultRangeController "instance1"
            (fun _ _ d => (true, d + 1)))
          ⟨"adjustRangeValue", "instance1", [("rangeValueDelta", JsonValue.int 3)], []⟩).2.response_value
          "rangeValue" = some (JsonValue.int w)
      ∧ getValue (handleRangeController "device1"
          (onAdjustRangeValueGeneric defaultRangeController "instance1"
            (fun _ _ d => (true, d + 1)))
          ⟨"adjustRangeValue", "instance1", [("rangeValueDelta", JsonValue.int 3)], []⟩).2.response_value
          "rangeValueDelta" = getValue [] "rangeValueDelta" :=
  spec_C7 "device1"
    (onAdjustRangeValueGeneric defaultRangeController "instance1" (fun _ _ d => (true, d + 1)))
    ⟨"adjustRangeValue", "instance1", [("rangeValueDelta", JsonValue.int 3)], []⟩ rfl

/-! ### Claim C8 -/

/-- Claim C8: any request whose action matches none of a capability's
supported actions is returned unhandled — `handle` yields false with the
request (in particular its `response_value`) completely untouched, for any
registered callbacks, for both the thermostat-style and the range-style
capability. -/
theorem spec_C8 (deviceId : String) (cT : ThermostatController) (cR : RangeController)
    (request : SinricProRequest) :
    (request.action ≠ "targetTemperature" → request.action ≠ "adjustTargetTemperature" →
      request.action ≠ "setThermostatMode" →
      handleThermostatController deviceId cT request = (false, request))
    ∧ (request.action ≠ "setRangeValue" → request.action ≠ "adjustRangeValue" →
      handleRangeController deviceId cR request = (false, request)) := by
  constructor
  · intro h1 h2 h3
    simp [handleThermostatController, h1, h2, h3]
  · intro h1 h2
    simp [handleRangeController, h1, h2]

/-- Witness for C8: the unclaimed action `"setPowerState"` is rejected
untouched by both capabilities even with every callback registered. -/
theorem spec_C8_witness :
    handleThermostatController "device1"
      (onThermostatMode
        (onTargetTemperature
          (onAdjustTargetTemperature defaultThermostatController (fun _ t => (true, t)))
          (fun _ t => (true, t)))
        (fun _ m => (true, m)))
      ⟨"setPowerState", "", [("state", JsonValue.str "On")], []⟩
      = (false, ⟨"setPowerState", "", [("state", JsonValue.str "On")], []⟩)
    ∧ handleRangeController "device1"
        (onRangeValue
          (onAdjustRangeValue defaultRangeController (fun _ v => (true, v)))
          (fun _ v => (true, v)))
        ⟨"setPowerState", "", [("state", JsonValue.str "On")], []⟩
      = (false, ⟨"setPowerState", "", [("state", JsonValue.str "On")], []⟩) := by
  have h := spec_C8 "device1"
      (onThermostatMode
        (onTargetTemperature
          (onAdjustTargetTemperature defaultThermostatController (fun _ t => (true, t)))
          (fun _ t => (true, t)))
        (fun _ m => (true, m)))
      (onRangeValue
        (onAdjustRangeValue defaultRangeController (fun _ v => (true, v)))
        (fun _ v => (true, v)))
      ⟨"setPowerState", "", [("state", JsonValue.str "On")], []⟩
  exact ⟨h.1 (by decide) (by decide) (by decide), h.2 (by decide) (by decide)⟩

/-! ### Claim C9 -/

/-- Claim C9: at most one callback per (capability, action, instance) key —
re-registering through the same method (or the same instance-qualified
overload with the same instance name) replaces the stored callback, and a
subsequent matching request invokes only the second callback. -/
theorem spec_C9 :
    (∀ (c : ThermostatController) (cb1 cb2 : ThermostatModeCallback),
        onThermostatMode (onThermostatMode c cb1) cb2 = onThermostatMode c cb2)
    ∧ (∀ (c : RangeController) (inst : String) (cb1 cb2 : GenericSetRangeValueCallback),
        onRangeValueGeneric (onRangeValueGeneric c inst cb1) inst cb2
          = onRangeValueGeneric c inst cb2)
    ∧ (∀ (deviceId : String) (c : ThermostatController) (cb1 cb2 : ThermostatModeCallback)
        (rv resp : List (String × JsonValue)),
        handleThermostatController deviceId (onThermostatMode (onThermostatMode c cb1) cb2)
          ⟨"setThermostatMode", "", rv, resp⟩
        = ((cb2 deviceId (getStrOr rv "thermostatMode" "")).1,
            ⟨"setThermostatMode", "", rv,
              setValue resp "thermostatMode"
                (JsonValue.str (cb2 deviceId (getStrOr rv "thermostatMode" "")).2)⟩))
    ∧ (∀ (deviceId : String) (c : RangeController) (inst : String)
        (cb1 cb2 : GenericSetRangeValueCallback) (rv resp : List (String × JsonValue)),
        inst ≠ "" →
        handleRangeController deviceId
          (onRangeValueGeneric (onRangeValueGeneric c inst cb1) inst cb2)
          ⟨"setRangeValue", inst, rv, resp⟩
        = ((cb2 deviceId inst (getIntOr rv "rangeValue" 0)).1,
            ⟨"setRangeValue", inst, rv,
              setValue resp "rangeValue"
                (JsonValue.int (cb2 deviceId inst (getIntOr rv "rangeValue" 0)).2)⟩)) := by
  refine ⟨?_, ?_, ?_, ?_⟩
  · intro c cb1 cb2
    cases c
    rfl
  · intro c inst cb1 cb2
    cases c
    simp only [onRangeValueGeneric]
    congr 1
    funext k
    by_cases hk : k = inst <;> simp [mapInsert, hk]
  · intro deviceId c cb1 cb2 rv resp
    simp [handleThermostatController, onThermostatMode]
  · intro deviceId c inst cb1 cb2 rv resp hinst
    simp [handleRangeController, onRangeValueGeneric, mapInsert, hinst]

/-- Witness for C9: registering two different `"instance1"`-keyed callbacks in
sequence: a matching request invokes only the second one (which succeeds and
bumps the value to 2), not the first (which would have failed). -/
theorem spec_C9_witness :
    handleRangeController "device1"
      (onRangeValueGeneric
        (onRangeValueGeneric defaultRangeController "instance1" (fun _ _ v => (false, v)))
        "instance1" (fun _ _ v => (true, v + 1)))
      ⟨"setRangeValue", "instance1", [("rangeValue", JsonValue.int 1)], []⟩
    = (true, ⟨"setRangeValue", "instance1", [("rangeValue", JsonValue.int 1)],
        [("rangeValue", JsonValue.int 2)]⟩) := by
  have h := spec_C9.2.2.2 "device1" defaultRangeController "instance1"
      (fun _ _ v => (false, v)) (fun _ _ v => (true, v + 1))
      [("rangeValue", JsonValue.int 1)] [] (by decide)
  simpa using h

/-! ### Claim C10 -/

/-- Claim C10: `sendTargetTemperatureEvent` writes the temperature into the
outbound event's value payload as `roundf(temperature * 10) / 10` — one
decimal place, halves away from zero, so 21.27 becomes 21.3 and 21.24
becomes 21.2 — while `handleThermostatController` writes the
(callback-mutated) value into `response_value` exactly, with no rounding. -/
theorem spec_C10 (deviceId : String) (c : ThermostatController)
    (cb : SetTargetTemperatureCallback) (request : SinricProRequest) (cause : String)
    (hact : request.action = "targetTemperature")
    (hcb : c.targetTemperatureCallback = some cb)
    (hkey : containsKey request.request_value "temperature" = true) :
    (∀ (device : Device) (t : ℚ),
      sendTargetTemperatureEvent device t cause
        = device.sendEvent (targetTemperatureEventMessage t cause))
    ∧ (∀ t : ℚ,
      getValue (targetTemperatureEventMessage t cause).payload_value "temperature"
        = some (JsonValue.num (roundf (t * 10) / 10)))
    ∧ getValue (targetTemperatureEventMessage (2127/100) cause).payload_value "temperature"
        = some (JsonValue.num (213/10))
    ∧ getValue (targetTemperatureEventMessage (2124/100) cause).payload_value "temperature"
        = some (JsonValue.num (212/10))
    ∧ handleThermostatController deviceId c request =
        ((cb deviceId (getFloat request.request_value "temperature")).1,
          { request with
              response_value :=
                setValue request.response_value "temperature"
                  (JsonValue.num
                    (cb deviceId (getFloat request.request_value "temperature")).2) }) := by
  refine ⟨fun device t => rfl, ?_, ?_, ?_, ?_⟩
  · intro t
    simp [targetTemperatureEventMessage, prepareEvent, setValue, getValue]
  · simp [targetTemperatureEventMessage, prepareEvent, setValue, getValue]
    norm_num [roundf]
  · simp [targetTemperatureEventMessage, prepareEvent, setValue, getValue]
    norm_num [roundf]
  · simp [handleThermostatController, hact, hcb, hkey]

/-- Witness for C10: the identity callback on a request carrying 21.27 echoes
exactly 21.27 (unrounded) into the response, while the event payload for the
same value carries 21.3. -/
theorem spec_C10_witness :
    containsKey [("temperature", JsonValue.num (2127/100))] "temperature" = true
    ∧ getValue (targetTemperatureEventMessage (2127/100) "PHYSICAL_INTERACTION").payload_value
        "temperature" = some (JsonValue.num (213/10))
    ∧ handleThermostatController "device1"
        (onTargetTemperature defaultThermostatController (fun _ t => (true, t)))
        ⟨"targetTemperature", "", [("temperature", JsonValue.num (2127/100))], []⟩
      = (true, ⟨"targetTemperature", "", [("temperature", JsonValue.num (2127/100))],
          [("temperature", JsonValue.num (2127/100))]⟩) := by
  have h := spec_C10 "device1"
      (onTargetTemperature defaultThermostatController (fun _ t => (true, t)))
      (fun _ t => (true, t))
      ⟨"targetTemperature", "", [("temperature", JsonValue.num (2127/100))], []⟩
      "PHYSICAL_INTERACTION" rfl rfl (by decide)
  refine ⟨by decide, h.2.2.1, ?_⟩
  have h5 := h.2.2.2.2
  simpa [getFloat, getValue] using h5
